import Mathlib

/-!
Verification of the scheduled-prompt automation subsystem of the Plugin-api
repository against its natural-language specification.

The definitions below are a shallow embedding of the JavaScript source:

* `src/vercel-api/db/automation-queries.js` — quota guard, schedule store
  queries (`checkUserScheduleLimit`, `createScheduledPrompt`,
  `getDueScheduledPrompts`, `updateScheduledPromptStatus`,
  `logAutomationExecution`, `deleteScheduledPrompt`);
* `src/unnamed/part_006` — the execution orchestrator
  (`executeScheduledPrompts`) and the inline notifier senders
  (`sendAnalysisToDiscord`, `sendAnalysisToTelegram`, `sendTelegramMessage`);
* `src/unnamed/part_003` — the Telegram chunking helper (`splitLongMessage`).

The relational store is modelled as in-memory lists of rows; `datetime`
instants are naturals; SQL `INSERT` appends, `UPDATE ... WHERE id = ?` maps
over rows, `DELETE ... WHERE` filters.  External effects (fetch calls,
integration-settings lookups, fallible database writes) are supplied by an
explicit oracle (`ExecEnv`, `FetchOutcome`, `TgFetchOutcome`) so that every
possible behaviour of a collaborator — including a thrown error — is a value
the theorems can quantify over.  JavaScript truthiness of strings is modelled
by comparison with the empty string.
-/


/-- Lifecycle state of a scheduled prompt row: the `status` column of
`scheduled_prompts` ('pending' | 'completed' | 'failed' | 'cancelled'). -/
inductive ScheduleStatus
  | pending
  | completed
  | failed
  | cancelled
deriving DecidableEq

/-- Outcome status of one execution-log row: the `status` column of
`automation_logs` ('success' | 'failed' | 'timeout'). -/
inductive LogStatus
  | success
  | failed
  | timeout
deriving DecidableEq

/-- The per-schedule channel flags stored in the `integrations` JSON column,
e.g. `{"telegram": true, "discord": false}`. -/
structure Integrations where
  telegram : Bool
  discord : Bool
deriving DecidableEq

/-- One row of the `scheduled_prompts` table (schema-automation.sql). -/
structure ScheduledPrompt where
  id : Nat
  proKeyId : Nat
  promptId : Option String
  promptTitle : String
  promptContent : String
  scheduledTime : Nat
  userTimezone : String
  displayTime : String
  status : ScheduleStatus
  integrations : Integrations
  executionCount : Nat
  lastExecution : Option Nat
  createdAt : Nat
  updatedAt : Nat
deriving DecidableEq

/-- One row of the `pro_keys` table, restricted to the columns the
scheduling subsystem reads (`id` and `status`). -/
structure ProKey where
  id : Nat
  status : String
deriving DecidableEq

/-- Per-channel delivery results accumulated by `executeScheduledPrompts`
(the `integrationResults` object of part_006). -/
structure IntegrationResults where
  telegram : Bool
  discord : Bool
  telegramError : Option String
  discordError : Option String
deriving DecidableEq

/-- One row of the `automation_logs` table. -/
structure AutomationLog where
  id : Nat
  scheduledPromptId : Nat
  status : LogStatus
  analysisResult : Option String
  integrationResults : Option IntegrationResults
  errorMessage : Option String
  executionDuration : Option Nat
deriving DecidableEq

/-- The relational store: the tables touched by the automation subsystem,
plus AUTOINCREMENT counters for the two primary keys. -/
structure Store where
  scheduledPrompts : List ScheduledPrompt
  proKeys : List ProKey
  automationLogs : List AutomationLog
  nextScheduleId : Nat
  nextLogId : Nat
deriving DecidableEq

/-- Input of `createScheduledPrompt` (automation-queries.js, `scheduleData`). -/
structure ScheduleData where
  proKeyId : Nat
  promptId : Option String
  promptTitle : String
  promptContent : String
  scheduledTime : Nat
  userTimezone : String
  displayTime : String
  integrations : Integrations
deriving DecidableEq

/-- Result object of `checkUserScheduleLimit`. -/
structure LimitCheck where
  canSchedule : Bool
  currentCount : Nat
  maxSchedules : Nat
  remaining : Nat
deriving DecidableEq

/-- Result object of a successful `createScheduledPrompt`. -/
structure CreateResult where
  scheduleId : Nat
  scheduledTime : Nat
  displayTime : String
  message : String
deriving DecidableEq

/-- The COUNT computed by `checkUserScheduleLimit`'s SQL query:
rows of `scheduled_prompts` with this `pro_key_id` and
`status IN ('pending', 'completed')`. -/
def liveScheduleCount (s : Store) (proKeyId : Nat) : Nat :=
  (s.scheduledPrompts.filter (fun p =>
    decide (p.proKeyId = proKeyId ∧
      (p.status = ScheduleStatus.pending ∨ p.status = ScheduleStatus.completed)))).length

/-- `checkUserScheduleLimit` (automation-queries.js lines 68-91): a fresh
count of live rows per call; `canSchedule` iff the count is below 10.
`remaining` is `Math.max(0, 10 - count)`, which truncated Nat subtraction
computes exactly. -/
def checkUserScheduleLimit (s : Store) (proKeyId : Nat) : LimitCheck :=
  let currentCount := liveScheduleCount s proKeyId
  { canSchedule := decide (currentCount < 10)
    currentCount := currentCount
    maxSchedules := 10
    remaining := 10 - currentCount }

/-- The quota-exceeded error message thrown by `createScheduledPrompt`. -/
def scheduleLimitMessage (currentCount : Nat) : String :=
  "Schedule limit reached. Maximum 10 schedules per user. Current: " ++ toString currentCount

/-- `createScheduledPrompt` (automation-queries.js lines 11-61): checks the
limit first and throws before any INSERT when the limit is reached;
otherwise inserts one new 'pending' row (DB defaults: `execution_count` 0,
`last_execution` NULL, `created_at`/`updated_at` now).  A thrown error is an
`Except.error` that carries no modified store. -/
def createScheduledPrompt (s : Store) (d : ScheduleData) (now : Nat) :
    Except String (Store × CreateResult) :=
  let limitCheck := checkUserScheduleLimit s d.proKeyId
  if limitCheck.canSchedule = false then
    Except.error (scheduleLimitMessage limitCheck.currentCount)
  else
    let row : ScheduledPrompt :=
      { id := s.nextScheduleId
        proKeyId := d.proKeyId
        promptId := d.promptId
        promptTitle := d.promptTitle
        promptContent := d.promptContent
        scheduledTime := d.scheduledTime
        userTimezone := d.userTimezone
        displayTime := d.displayTime
        status := ScheduleStatus.pending
        integrations := d.integrations
        executionCount := 0
        lastExecution := none
        createdAt := now
        updatedAt := now }
    Except.ok
      ({ s with
          scheduledPrompts := s.scheduledPrompts ++ [row]
          nextScheduleId := s.nextScheduleId + 1 },
        { scheduleId := s.nextScheduleId
          scheduledTime := d.scheduledTime
          displayTime := d.displayTime
          message := "Prompt scheduled for " ++ d.displayTime })

/-- `deleteScheduledPrompt` (automation-queries.js lines 205-224):
`DELETE FROM scheduled_prompts WHERE id = ? AND pro_key_id = ?`; the Bool is
`rowsAffected > 0`. -/
def deleteScheduledPrompt (s : Store) (scheduleId proKeyId : Nat) : Store × Bool :=
  let remaining := s.scheduledPrompts.filter (fun p =>
    !(decide (p.id = scheduleId ∧ p.proKeyId = proKeyId)))
  ({ s with scheduledPrompts := remaining },
    decide (remaining.length < s.scheduledPrompts.length))

/-- The JOIN of `getDueScheduledPrompts`:
`FROM scheduled_prompts sp JOIN pro_keys pk ON sp.pro_key_id = pk.id`. -/
def dueJoinRows (s : Store) : List (ScheduledPrompt × ProKey) :=
  s.scheduledPrompts.flatMap (fun sp =>
    (s.proKeys.filter (fun pk => decide (pk.id = sp.proKeyId))).map (fun pk => (sp, pk)))

/-- The `ORDER BY sp.scheduled_time ASC` ordering relation. -/
def schedLE (a b : ScheduledPrompt) : Prop := a.scheduledTime ≤ b.scheduledTime

instance : DecidableRel schedLE := fun a b => Nat.decLe a.scheduledTime b.scheduledTime

instance : IsTotal ScheduledPrompt schedLE := ⟨fun a b => Nat.le_total a.scheduledTime b.scheduledTime⟩

instance : IsTrans ScheduledPrompt schedLE := ⟨fun _ _ _ h h1 => Nat.le_trans h h1⟩

/-- `getDueScheduledPrompts` (automation-queries.js lines 137-174):
`WHERE sp.status = 'pending' AND datetime(sp.scheduled_time) <= datetime('now')
AND pk.status = 'active' ORDER BY sp.scheduled_time ASC`.  The boundary is
inclusive (`<=`). -/
def getDueScheduledPrompts (s : Store) (now : Nat) : List ScheduledPrompt :=
  List.insertionSort schedLE
    (((dueJoinRows s).filter (fun r =>
      decide (r.1.status = ScheduleStatus.pending ∧ r.1.scheduledTime ≤ now ∧
        r.2.status = "active"))).map Prod.fst)

/-- `updateScheduledPromptStatus` (automation-queries.js lines 182-197):
`UPDATE scheduled_prompts SET status = ?, updated_at = datetime('now'),
execution_count = execution_count + 1 WHERE id = ?`.  Note that the
`last_execution` column is not in the SET list and is therefore untouched.
The Bool is `rowsAffected > 0`. -/
def updateScheduledPromptStatus (s : Store) (scheduleId : Nat) (status : ScheduleStatus)
    (now : Nat) : Store × Bool :=
  ({ s with scheduledPrompts := s.scheduledPrompts.map (fun row =>
      if row.id = scheduleId then
        { row with status := status, updatedAt := now, executionCount := row.executionCount + 1 }
      else row) },
    decide (s.scheduledPrompts.countP (fun row => decide (row.id = scheduleId)) > 0))

/-- Input of `logAutomationExecution` (automation-queries.js, `logData`),
with the source's `= null` parameter defaults. -/
structure LogData where
  scheduledPromptId : Nat
  status : LogStatus
  analysisResult : Option String := none
  integrationResults : Option IntegrationResults := none
  errorMessage : Option String := none
  executionDuration : Option Nat := none
deriving DecidableEq

/-- `logAutomationExecution` (automation-queries.js lines 231-268):
INSERT of one `automation_logs` row. -/
def logAutomationExecution (s : Store) (d : LogData) : Store :=
  { s with
    automationLogs := s.automationLogs ++
      [{ id := s.nextLogId
         scheduledPromptId := d.scheduledPromptId
         status := d.status
         analysisResult := d.analysisResult
         integrationResults := d.integrationResults
         errorMessage := d.errorMessage
         executionDuration := d.executionDuration }]
    nextLogId := s.nextLogId + 1 }

/-- Behaviour of one Discord `fetch` call as seen by the caller: either the
await throws (network error) or a response with `ok`, `status` and a body
text arrives. -/
inductive FetchOutcome
  | throws (msg : String)
  | responds (ok : Bool) (status : Nat) (body : String)
deriving DecidableEq

/-- Behaviour of one Telegram Bot-API `fetch`+`json()` call: either the
await throws, or a response with `ok`, `status`, an optional
`data.description` and `data.result.message_id` arrives. -/
inductive TgFetchOutcome
  | throws (msg : String)
  | responds (ok : Bool) (status : Nat) (description : Option String) (messageId : Nat)
deriving DecidableEq

/-- Result object of `sendAnalysisToDiscord` (part_006 lines 583-623). -/
structure DiscordSendResult where
  success : Bool
  message : Option String
  error : Option String
deriving DecidableEq

/-- Result object of `sendAnalysisToTelegram` (part_006 lines 632-655). -/
structure TelegramSendResult where
  success : Bool
  messageId : Option Nat
  error : Option String
deriving DecidableEq

/-- `sendAnalysisToDiscord` (part_006 lines 583-623).  The whole body sits in
a try/catch, so every throw — the missing-webhook guard, a network error, or
the non-2xx branch — becomes a `{success: false, error}` return value.  The
`message` argument stands for the formatted embed payload (its content does
not influence control flow). -/
def sendAnalysisToDiscord (message webhookUrl : String) (o : FetchOutcome) :
    DiscordSendResult :=
  if webhookUrl = "" then
    { success := false, message := none, error := some "Discord webhook URL is required" }
  else
    match o with
    | FetchOutcome.throws m => { success := false, message := none, error := some m }
    | FetchOutcome.responds ok status body =>
      if ok = false then
        { success := false, message := none,
          error := some ("Discord webhook failed: " ++ toString status ++ " - " ++ body) }
      else
        { success := true, message := some "Successfully sent to Discord", error := none }

/-- `sendTelegramMessage` (part_006 lines 664-692): throws the awaited
error, or `data.description || HTTP <status>` when `!response.ok` (an empty
description is falsy), else returns the message id. -/
def sendTelegramMessage (botToken chatId message : String) (o : TgFetchOutcome) :
    Except String Nat :=
  match o with
  | TgFetchOutcome.throws m => Except.error m
  | TgFetchOutcome.responds ok status description messageId =>
    if ok = false then
      Except.error
        (match description with
          | some d => if d = "" then "HTTP " ++ toString status else d
          | none => "HTTP " ++ toString status)
    else Except.ok messageId

/-- `sendAnalysisToTelegram` (part_006 lines 632-655): guard on missing
token/chat id, one `sendTelegramMessage` call, try/catch turning every throw
into a `{success: false, error}` value. -/
def sendAnalysisToTelegram (message botToken chatId : String) (o : TgFetchOutcome) :
    TelegramSendResult :=
  if botToken = "" ∨ chatId = "" then
    { success := false, messageId := none, error := some "Bot token and chat ID are required" }
  else
    match sendTelegramMessage botToken chatId message o with
    | Except.ok mid => { success := true, messageId := some mid, error := none }
    | Except.error e => { success := false, messageId := none, error := some e }

/-- Telegram integration settings as returned by `getTelegramSettings`. -/
structure TelegramSettings where
  botToken : String
  chatId : String
deriving DecidableEq

/-- Discord integration settings as returned by `getDiscordSettings`. -/
structure DiscordSettings where
  webhookUrl : String
deriving DecidableEq

/-- Identifies one fallible database write of the per-schedule execution
loop in `executeScheduledPrompts`: the success-path log INSERT, the
'completed' status UPDATE, and the two writes of the catch handler. -/
inductive WriteCall
  | successLog (promptId : Nat)
  | completedUpdate (promptId : Nat)
  | failedLog (promptId : Nat)
  | failedUpdate (promptId : Nat)
deriving DecidableEq

/-- Oracle for all external behaviour one execution cycle can observe:
integration-settings lookups per owner (`getTelegramSettings` /
`getDiscordSettings`, including their env-var fallbacks, which both return
`null`/`none` when nothing is configured), the fetch outcome of each send
(per prompt id), whether each storage write throws (`some errorMessage`) or
succeeds (`none`), the measured duration, and the wall-clock strings used in
the generated analysis text. -/
structure ExecEnv where
  telegramSettings : Nat → Option TelegramSettings
  discordSettings : Nat → Option DiscordSettings
  telegramFetch : Nat → TgFetchOutcome
  discordFetch : Nat → FetchOutcome
  writeResult : WriteCall → Option String
  durationOf : Nat → Nat
  nowIso : String

/-- The generated analysis content of `executeScheduledPrompts`
(part_006 lines 214-226): a text built from the prompt title, body and the
current instant. -/
def analysisMessage (p : ScheduledPrompt) (nowIso : String) : String :=
  "Analysis completed for: " ++ p.promptTitle ++ "\n\nPrompt: " ++ p.promptContent ++
    "\n\nExecuted at: " ++ nowIso

/-- The integration phase of one due prompt (part_006 lines 229-301):
for each enabled channel, look up settings (missing or blank settings record
`"<Channel> settings not configured"` — note the capitalised channel name in
the source — and continue); otherwise send and record the result
independently per channel.  Neither send can throw (they return result
values), so the surrounding per-channel catches are unreachable. -/
def runIntegrations (env : ExecEnv) (p : ScheduledPrompt) : IntegrationResults :=
  let r0 : IntegrationResults :=
    { telegram := false, discord := false, telegramError := none, discordError := none }
  let r1 :=
    if p.integrations.telegram then
      match env.telegramSettings p.proKeyId with
      | some ts =>
        if ts.botToken = "" ∨ ts.chatId = "" then
          { r0 with telegramError := some "Telegram settings not configured" }
        else
          let tr := sendAnalysisToTelegram (analysisMessage p env.nowIso) ts.botToken ts.chatId
            (env.telegramFetch p.id)
          if tr.success then { r0 with telegram := true }
          else { r0 with telegramError := tr.error }
      | none => { r0 with telegramError := some "Telegram settings not configured" }
    else r0
  if p.integrations.discord then
    match env.discordSettings p.proKeyId with
    | some ds =>
      if ds.webhookUrl = "" then
        { r1 with discordError := some "Discord settings not configured" }
      else
        let dr := sendAnalysisToDiscord (analysisMessage p env.nowIso) ds.webhookUrl
          (env.discordFetch p.id)
        if dr.success then { r1 with discord := true }
        else { r1 with discordError := dr.error }
    | none => { r1 with discordError := some "Discord settings not configured" }
  else r1

/-- The success-path log row data of one pick-up (part_006 lines 306-312). -/
def successLogData (env : ExecEnv) (p : ScheduledPrompt) : LogData :=
  { scheduledPromptId := p.id
    status := LogStatus.success
    analysisResult := some (analysisMessage p env.nowIso)
    integrationResults := some (runIntegrations env p)
    executionDuration := some (env.durationOf p.id) }

/-- The catch handler of the per-prompt loop (part_006 lines 321-336): log a
'failed' row with the thrown message and duration 0, then set the schedule
status to 'failed'.  Either write can itself throw, which propagates out of
the loop (aborting the cycle). -/
def executeCatch (env : ExecEnv) (now : Nat) (s : Store) (p : ScheduledPrompt)
    (errMsg : String) : Except String (Store × Bool) :=
  match env.writeResult (WriteCall.failedLog p.id) with
  | some e => Except.error e
  | none =>
    let s1 := logAutomationExecution s
      { scheduledPromptId := p.id
        status := LogStatus.failed
        errorMessage := some errMsg
        executionDuration := some 0 }
    match env.writeResult (WriteCall.failedUpdate p.id) with
    | some e => Except.error e
    | none =>
      Except.ok ((updateScheduledPromptStatus s1 p.id ScheduleStatus.failed now).1, false)

/-- One iteration of the per-prompt loop (part_006 lines 207-337).  The only
awaits inside the try that can throw are the success-path log INSERT and the
'completed' status UPDATE; a throw diverts to the catch handler.  The Bool
reports whether the `executed` (true) or `failed` (false) counter was
incremented. -/
def executeOne (env : ExecEnv) (now : Nat) (s : Store) (p : ScheduledPrompt) :
    Except String (Store × Bool) :=
  match env.writeResult (WriteCall.successLog p.id) with
  | some msg => executeCatch env now s p msg
  | none =>
    let s1 := logAutomationExecution s (successLogData env p)
    match env.writeResult (WriteCall.completedUpdate p.id) with
    | some msg => executeCatch env now s1 p msg
    | none =>
      Except.ok ((updateScheduledPromptStatus s1 p.id ScheduleStatus.completed now).1, true)

/-- The `for (const prompt of duePrompts)` loop of `executeScheduledPrompts`
with its `executed`/`failed` accumulators; an error escaping the per-prompt
catch aborts the remaining iterations. -/
def executeLoop (env : ExecEnv) (now : Nat) :
    List ScheduledPrompt → Store → Nat → Nat → Except String (Store × Nat × Nat)
  | [], s, executed, failedCount => Except.ok (s, executed, failedCount)
  | p :: rest, s, executed, failedCount =>
    match executeOne env now s p with
    | Except.error e => Except.error e
    | Except.ok (s', true) => executeLoop env now rest s' (executed + 1) failedCount
    | Except.ok (s', false) => executeLoop env now rest s' executed (failedCount + 1)

/-- `executeScheduledPrompts` (part_006 lines 190-347): fetch the due
prompts once, process them sequentially in the fetched order, and return the
`{executed, failed}` counts. -/
def executeScheduledPrompts (env : ExecEnv) (s : Store) (now : Nat) :
    Except String (Store × Nat × Nat) :=
  executeLoop env now (getDueScheduledPrompts s now) s 0 0

/-- JavaScript `message.split('\n')` over a string modelled as its character
list (part_003). -/
def splitOnNewlineChars : List Char → List (List Char)
  | [] => [[]]
  | c :: cs =>
    if c = '\n' then [] :: splitOnNewlineChars cs
    else
      match splitOnNewlineChars cs with
      | [] => [[c]]
      | l :: ls => (c :: l) :: ls

/-- One iteration of `splitLongMessage`'s `for (const line of lines)` loop
(part_003 lines 291-306), accumulating `(chunks, currentChunk)`. -/
def splitChunkStep (acc : List (List Char) × List Char) (line : List Char) :
    List (List Char) × List Char :=
  let chunks := acc.1
  let currentChunk := acc.2
  let testChunk := currentChunk ++ (if currentChunk = [] then [] else ['\n']) ++ line
  if testChunk.length ≤ 4096 - 50 then (chunks, testChunk)
  else if currentChunk = [] then
    (chunks ++ [line.take (4096 - 50) ++ ['.', '.', '.']],
      ['.', '.', '.'] ++ line.drop (4096 - 50))
  else (chunks ++ [currentChunk], line)

/-- `splitLongMessage` (part_003 lines 280-313): messages of at most 4096
characters pass through whole; longer messages are accumulated line by line
into chunks of at most `4096 - 50` characters, except that an overlong line
reached while `currentChunk` is nonempty is carried over verbatim — it is
never split. -/
def splitLongMessage (message : List Char) : List (List Char) :=
  if message.length ≤ 4096 then [message]
  else
    let folded := (splitOnNewlineChars message).foldl splitChunkStep ([], [])
    if folded.2 = [] then folded.1 else folded.1 ++ [folded.2]

/-- An active owner key, as stored in `pro_keys`. -/
def sampleKey : ProKey := { id := 1, status := "active" }

/-- A schedule row builder for concrete stores. -/
def samplePrompt (id schedTime : Nat) (status : ScheduleStatus) (tg : Bool) : ScheduledPrompt :=
  { id := id
    proKeyId := 1
    promptId := none
    promptTitle := "Daily report"
    promptContent := "Summarize the day"
    scheduledTime := schedTime
    userTimezone := "UTC"
    displayTime := "Jan 1, 10:00 AM UTC"
    status := status
    integrations := { telegram := tg, discord := false }
    executionCount := 0
    lastExecution := none
    createdAt := 0
    updatedAt := 0 }

/-- A store holding exactly ten live (pending) schedules of owner 1. -/
def tenLiveStore : Store :=
  { scheduledPrompts := (List.range 10).map (fun i => samplePrompt (i + 1) 50 ScheduleStatus.pending false)
    proKeys := [sampleKey]
    automationLogs := []
    nextScheduleId := 11
    nextLogId := 1 }

/-- Creation request of owner 1 used in witnesses. -/
def sampleData : ScheduleData :=
  { proKeyId := 1
    promptId := none
    promptTitle := "New schedule"
    promptContent := "Do things"
    scheduledTime := 99
    userTimezone := "UTC"
    displayTime := "Jan 1, 11:39 AM UTC"
    integrations := { telegram := false, discord := false } }

/-- A revoked owner key for the C4 witness store. -/
def revokedKey : ProKey := { id := 2, status := "revoked" }

/-- Store for the due-query witness: a pending schedule due exactly at the
poll instant, a completed one in the past, a pending one of a revoked key,
and a pending one in the future. -/
def dueQueryStore : Store :=
  { scheduledPrompts :=
      [samplePrompt 1 100 ScheduleStatus.pending false,
        samplePrompt 2 50 ScheduleStatus.completed false,
        { samplePrompt 3 50 ScheduleStatus.pending false with proKeyId := 2 },
        samplePrompt 4 150 ScheduleStatus.pending false]
    proKeys := [sampleKey, revokedKey]
    automationLogs := []
    nextScheduleId := 5
    nextLogId := 1 }

/-- A failure-free environment: no integration settings configured, network
throwing (irrelevant when settings are missing), every storage write
succeeding. -/
def ffEnv : ExecEnv :=
  { telegramSettings := fun _ => none
    discordSettings := fun _ => none
    telegramFetch := fun _ => TgFetchOutcome.throws "network unavailable"
    discordFetch := fun _ => FetchOutcome.throws "network unavailable"
    writeResult := fun _ => none
    durationOf := fun _ => 7
    nowIso := "2026-01-01T00:00:00Z" }

/-- The environment in which the success-path log INSERT of every prompt
throws a database error while all other writes succeed. -/
def failingLogEnv : ExecEnv :=
  { ffEnv with writeResult := fun c =>
      match c with
      | WriteCall.successLog _ => some "db write failed"
      | _ => none }

/-- A due pending schedule of owner 1 with only Telegram enabled. -/
def singleDuePrompt : ScheduledPrompt := samplePrompt 1 50 ScheduleStatus.pending true

/-- A store holding exactly `singleDuePrompt`, due at any instant from 50 on. -/
def singleDueStore : Store :=
  { scheduledPrompts := [singleDuePrompt]
    proKeys := [sampleKey]
    automationLogs := []
    nextScheduleId := 2
    nextLogId := 1 }

/-- A store with two due schedules listed out of `scheduledTime` order, to
exercise the ORDER BY of the due query. -/
def twoDueStore : Store :=
  { scheduledPrompts :=
      [samplePrompt 1 605 ScheduleStatus.pending false,
        samplePrompt 2 600 ScheduleStatus.pending false]
    proKeys := [sampleKey]
    automationLogs := []
    nextScheduleId := 3
    nextLogId := 1 }

/-- The store produced by one failure-free cycle over `singleDueStore`. -/
def singleDueFinalStore : Store :=
  match executeScheduledPrompts ffEnv singleDueStore 100 with
  | Except.ok (s, _, _) => s
  | Except.error _ => singleDueStore

/-- Extracts the `last_execution` column of `scheduled_prompts` from a cycle
result (empty list when the cycle threw). -/
def lastExecutionColumn (r : Except String (Store × Nat × Nat)) : List (Option Nat) :=
  match r with
  | Except.ok (s', _, _) => s'.scheduledPrompts.map (fun row => row.lastExecution)
  | Except.error _ => []

/-- Extracts the `status` column of `scheduled_prompts` from a cycle result
(empty list when the cycle threw). -/
def statusColumn (r : Except String (Store × Nat × Nat)) : List ScheduleStatus :=
  match r with
  | Except.ok (s', _, _) => s'.scheduledPrompts.map (fun row => row.status)
  | Except.error _ => []

/-- Extracts the recorded Telegram channel error of the first execution-log
row from a cycle result. -/
def firstLogTelegramError (r : Except String (Store × Nat × Nat)) : Option String :=
  match r with
  | Except.ok (s', _, _) =>
    match s'.automationLogs with
    | lg :: _ =>
      match lg.integrationResults with
      | some ir => ir.telegramError
      | none => none
    | [] => none
  | Except.error _ => none

/-- A 5000-character line with no newline, as can reach `splitLongMessage`
from a long un-truncated summary or from HTML-escaping expansion. -/
def c8LongLine : List Char := List.replicate 5000 'x'

/-- A message over the 4096 limit whose second line is itself overlong: a
short first line followed by the 5000-character line. -/
def c8BadMessage : List Char := 'a' :: '\n' :: c8LongLine

lemma countP_split {α : Type} (l : List α) (q r : α → Bool) :
    l.countP q = l.countP (fun a => q a && r a) + l.countP (fun a => q a && !r a) := by
  induction l with
  | nil => simp
  | cons a t ih =>
    simp only [List.countP_cons, ih]
    cases hq : q a <;> cases hr : r a <;> simp [hq, hr] <;> omega

lemma countP_le_one_of_nodup_key {α : Type} (f : α → Nat) (l : List α)
    (hn : (l.map f).Nodup) (k : Nat) (q : α → Bool) (hq : ∀ p, q p = true → f p = k) :
    l.countP q ≤ 1 := by
  induction l with
  | nil => simp
  | cons a t ih =>
    simp only [List.map_cons, List.nodup_cons] at hn
    simp only [List.countP_cons]
    cases hqa : q a
    · simpa using ih hn.2
    · have hfa : f a = k := hq a hqa
      have hzero : t.countP q = 0 := by
        rw [List.countP_eq_zero]
        intro b hb hqb
        exact hn.1 (by rw [hfa, ← hq b hqb]; exact List.mem_map_of_mem f hb)
      simp [hzero]

/-- `createScheduledPrompt` returns the quota error exactly when the fresh
live count is at least 10. -/
lemma createScheduledPrompt_error_iff (s : Store) (d : ScheduleData) (now : Nat) :
    createScheduledPrompt s d now
        = Except.error (scheduleLimitMessage (liveScheduleCount s d.proKeyId))
      ↔ 10 ≤ liveScheduleCount s d.proKeyId := by
  unfold createScheduledPrompt checkUserScheduleLimit
  by_cases h : liveScheduleCount s d.proKeyId < 10
  · simp [h]
  · simp [h]
    omega

/-- `createScheduledPrompt` succeeds exactly when the fresh live count is
below 10. -/
lemma createScheduledPrompt_isOk_iff (s : Store) (d : ScheduleData) (now : Nat) :
    (createScheduledPrompt s d now).isOk = true ↔ liveScheduleCount s d.proKeyId < 10 := by
  unfold createScheduledPrompt checkUserScheduleLimit
  by_cases h : liveScheduleCount s d.proKeyId < 10
  · simp [h, Except.isOk, Except.toBool]
  · simp [h, Except.isOk, Except.toBool]

/-- Deleting a live schedule of an owner lowers that owner's fresh live
count by exactly one (schedule ids are unique). -/
lemma liveScheduleCount_delete (s : Store) (k sid : Nat)
    (hn : (s.scheduledPrompts.map (fun p => p.id)).Nodup)
    (hex : ∃ p ∈ s.scheduledPrompts, p.id = sid ∧ p.proKeyId = k ∧
      (p.status = ScheduleStatus.pending ∨ p.status = ScheduleStatus.completed)) :
    liveScheduleCount ((deleteScheduledPrompt s sid k).1) k = liveScheduleCount s k - 1 := by
  classical
  have hone : s.scheduledPrompts.countP (fun a =>
      decide (a.proKeyId = k ∧ (a.status = ScheduleStatus.pending ∨ a.status = ScheduleStatus.completed))
        && decide (a.id = sid ∧ a.proKeyId = k)) = 1 := by
    have hle : s.scheduledPrompts.countP (fun a =>
        decide (a.proKeyId = k ∧ (a.status = ScheduleStatus.pending ∨ a.status = ScheduleStatus.completed))
          && decide (a.id = sid ∧ a.proKeyId = k)) ≤ 1 := by
      refine countP_le_one_of_nodup_key (fun p => p.id) s.scheduledPrompts hn sid _ ?_
      intro p hp
      have h1 := (Bool.and_eq_true _ _).mp hp
      exact (of_decide_eq_true h1.2).1
    have hge : 0 < s.scheduledPrompts.countP (fun a =>
        decide (a.proKeyId = k ∧ (a.status = ScheduleStatus.pending ∨ a.status = ScheduleStatus.completed))
          && decide (a.id = sid ∧ a.proKeyId = k)) := by
      rw [List.countP_pos_iff]
      obtain ⟨p, hp, hid, hkey, hst⟩ := hex
      refine ⟨p, hp, ?_⟩
      simp [hid, hkey, hst]
    omega
  have hsplit := countP_split s.scheduledPrompts
    (fun a => decide (a.proKeyId = k ∧ (a.status = ScheduleStatus.pending ∨ a.status = ScheduleStatus.completed)))
    (fun a => decide (a.id = sid ∧ a.proKeyId = k))
  have hdel : liveScheduleCount ((deleteScheduledPrompt s sid k).1) k
      = s.scheduledPrompts.countP (fun a =>
          decide (a.proKeyId = k ∧ (a.status = ScheduleStatus.pending ∨ a.status = ScheduleStatus.completed))
            && !(decide (a.id = sid ∧ a.proKeyId = k))) := by
    unfold liveScheduleCount deleteScheduledPrompt
    rw [← List.countP_eq_length_filter, List.countP_filter]
  have hcnt : liveScheduleCount s k = s.scheduledPrompts.countP (fun a =>
      decide (a.proKeyId = k ∧ (a.status = ScheduleStatus.pending ∨ a.status = ScheduleStatus.completed))) := by
    unfold liveScheduleCount
    rw [← List.countP_eq_length_filter]
  omega

/-- C1: for every owner, creating a scheduled prompt is rejected with the
quota-exceeded error exactly when the owner's freshly-computed count of
schedules with status in {pending, completed} is at least 10; when that
count is below 10 creation is permitted — in particular, an owner at the
limit of 10 live schedules can create again after deleting one of them. -/
theorem quota_rejects_creation_iff_ten_live (s : Store) (d : ScheduleData) (now : Nat)
    (hn : (s.scheduledPrompts.map (fun p => p.id)).Nodup) :
    (createScheduledPrompt s d now
        = Except.error (scheduleLimitMessage (liveScheduleCount s d.proKeyId))
      ↔ 10 ≤ liveScheduleCount s d.proKeyId)
    ∧ ((createScheduledPrompt s d now).isOk = true ↔ liveScheduleCount s d.proKeyId < 10)
    ∧ (∀ sid, (∃ p ∈ s.scheduledPrompts, p.id = sid ∧ p.proKeyId = d.proKeyId ∧
          (p.status = ScheduleStatus.pending ∨ p.status = ScheduleStatus.completed)) →
        liveScheduleCount s d.proKeyId = 10 →
        (createScheduledPrompt ((deleteScheduledPrompt s sid d.proKeyId).1) d now).isOk = true) := by
  refine ⟨createScheduledPrompt_error_iff s d now, createScheduledPrompt_isOk_iff s d now, ?_⟩
  intro sid hex hten
  rw [createScheduledPrompt_isOk_iff]
  rw [liveScheduleCount_delete s d.proKeyId sid hn hex, hten]
  omega

/-- Witness for C1: a store with exactly ten live schedules of owner 1
rejects an 11th creation with the quota error, and permits it again after
one of the ten is deleted. -/
theorem quota_rejects_creation_iff_ten_live_witness :
    ((tenLiveStore.scheduledPrompts.map (fun p => p.id)).Nodup)
    ∧ createScheduledPrompt tenLiveStore sampleData 60 = Except.error (scheduleLimitMessage 10)
    ∧ (createScheduledPrompt ((deleteScheduledPrompt tenLiveStore 1 1).1) sampleData 60).isOk = true := by
  refine ⟨by decide, ?_, ?_⟩
  · exact (quota_rejects_creation_iff_ten_live tenLiveStore sampleData 60 (by decide)).1.mpr
      (by decide)
  · exact (quota_rejects_creation_iff_ten_live tenLiveStore sampleData 60 (by decide)).2.2 1
      (by decide) (by decide)

/-- C10: `createScheduledPrompt` is atomic on quota error — when
`checkUserScheduleLimit` reports the owner cannot schedule, it throws the
quota error before issuing any insert, so no `Except.ok` store can come out
of the failed creation and the caller's store is unchanged. -/
theorem create_throws_before_insert_on_quota (s : Store) (d : ScheduleData) (now : Nat)
    (h : (checkUserScheduleLimit s d.proKeyId).canSchedule = false) :
    createScheduledPrompt s d now
        = Except.error (scheduleLimitMessage (liveScheduleCount s d.proKeyId))
    ∧ ∀ t, createScheduledPrompt s d now ≠ Except.ok t := by
  have h10 : 10 ≤ liveScheduleCount s d.proKeyId := by
    simp [checkUserScheduleLimit] at h
    omega
  have herr := (createScheduledPrompt_error_iff s d now).mpr h10
  refine ⟨herr, ?_⟩
  intro t hok
  rw [herr] at hok
  exact Except.noConfusion hok

/-- Witness for C10: with ten live schedules the limit check forbids
scheduling, creation returns exactly the quota error and no ok-result. -/
theorem create_throws_before_insert_on_quota_witness :
    (checkUserScheduleLimit tenLiveStore 1).canSchedule = false
    ∧ createScheduledPrompt tenLiveStore sampleData 60 = Except.error (scheduleLimitMessage 10)
    ∧ ∀ t, createScheduledPrompt tenLiveStore sampleData 60 ≠ Except.ok t := by
  refine ⟨by decide, ?_, ?_⟩
  · exact (create_throws_before_insert_on_quota tenLiveStore sampleData 60 (by decide)).1
  · exact (create_throws_before_insert_on_quota tenLiveStore sampleData 60 (by decide)).2

/-- Membership in the due-query result: exactly the pending rows whose
scheduled time is at or before `now` (inclusive boundary) and whose owner
key is active. -/
lemma mem_getDueScheduledPrompts_iff (s : Store) (now : Nat) (p : ScheduledPrompt) :
    p ∈ getDueScheduledPrompts s now ↔
      (p ∈ s.scheduledPrompts ∧ p.status = ScheduleStatus.pending ∧ p.scheduledTime ≤ now ∧
        ∃ pk ∈ s.proKeys, pk.id = p.proKeyId ∧ pk.status = "active") := by
  unfold getDueScheduledPrompts dueJoinRows
  rw [(List.perm_insertionSort schedLE _).mem_iff]
  simp only [List.mem_map, List.mem_filter, List.mem_flatMap, decide_eq_true_eq, Prod.exists]
  aesop

/-- With unique key ids, the ON-clause matches at most one `pro_keys` row. -/
lemma filter_key_length_le_one (keys : List ProKey)
    (hk : (keys.map (fun k => k.id)).Nodup) (x : Nat) :
    (keys.filter (fun pk => decide (pk.id = x))).length ≤ 1 := by
  rw [← List.countP_eq_length_filter]
  exact countP_le_one_of_nodup_key (fun k => k.id) keys hk x _ (fun p hp => of_decide_eq_true hp)

/-- The schedule components of the JOIN rows form a sublist of the schedule
table when key ids are unique: the JOIN duplicates no schedule row. -/
lemma joinRows_fst_sublist (keys : List ProKey)
    (hk : (keys.map (fun k => k.id)).Nodup) (l : List ScheduledPrompt) :
    List.Sublist
      ((l.flatMap (fun sp =>
        (keys.filter (fun pk => decide (pk.id = sp.proKeyId))).map (fun pk => (sp, pk)))).map
          Prod.fst) l := by
  induction l with
  | nil => simp
  | cons a t ih =>
    rw [List.flatMap_cons, List.map_append]
    have hlen := filter_key_length_le_one keys hk a.proKeyId
    cases hfl : keys.filter (fun pk => decide (pk.id = a.proKeyId)) with
    | nil =>
      simp only [List.map_nil, List.nil_append]
      exact ih.cons a
    | cons pk rest =>
      cases rest with
      | nil =>
        simp only [List.map_cons, List.map_nil, List.singleton_append]
        exact ih.cons₂ a
      | cons pk2 rest2 =>
        rw [hfl] at hlen
        simp at hlen

/-- With unique schedule ids and unique key ids, the due query returns each
schedule at most once. -/
lemma due_ids_nodup (s : Store) (now : Nat)
    (hs : (s.scheduledPrompts.map (fun p => p.id)).Nodup)
    (hk : (s.proKeys.map (fun k => k.id)).Nodup) :
    ((getDueScheduledPrompts s now).map (fun p => p.id)).Nodup := by
  have hperm : List.Perm ((getDueScheduledPrompts s now).map (fun p => p.id))
      ((((dueJoinRows s).filter (fun r =>
        decide (r.1.status = ScheduleStatus.pending ∧ r.1.scheduledTime ≤ now ∧
          r.2.status = "active"))).map Prod.fst).map (fun p => p.id)) :=
    (List.perm_insertionSort schedLE _).map _
  refine hperm.nodup_iff.mpr ?_
  have hsub2 : List.Sublist (((dueJoinRows s).filter (fun r =>
      decide (r.1.status = ScheduleStatus.pending ∧ r.1.scheduledTime ≤ now ∧
        r.2.status = "active"))).map Prod.fst) ((dueJoinRows s).map Prod.fst) :=
    (List.filter_sublist (dueJoinRows s)).map Prod.fst
  have hsub3 : List.Sublist ((dueJoinRows s).map Prod.fst) s.scheduledPrompts :=
    joinRows_fst_sublist s.proKeys hk s.scheduledPrompts
  exact hs.sublist ((hsub2.trans hsub3).map (fun p => p.id))

/-- C4: a poll cycle's due query returns exactly the schedules with status
pending, `scheduledAt` at or before the current instant (the boundary
`scheduledAt = now` is included by the `<=` comparison), and an active owner
key; it never returns a completed, failed or cancelled schedule, and (with
unique schedule and key ids) each due schedule appears exactly once. -/
theorem due_query_exactly_pending_due_active_once (s : Store) (now : Nat)
    (hs : (s.scheduledPrompts.map (fun p => p.id)).Nodup)
    (hk : (s.proKeys.map (fun k => k.id)).Nodup) :
    (∀ p, p ∈ getDueScheduledPrompts s now ↔
        (p ∈ s.scheduledPrompts ∧ p.status = ScheduleStatus.pending ∧ p.scheduledTime ≤ now ∧
          ∃ pk ∈ s.proKeys, pk.id = p.proKeyId ∧ pk.status = "active"))
    ∧ (∀ p ∈ getDueScheduledPrompts s now,
        p.status ≠ ScheduleStatus.completed ∧ p.status ≠ ScheduleStatus.failed ∧
          p.status ≠ ScheduleStatus.cancelled)
    ∧ ((getDueScheduledPrompts s now).map (fun p => p.id)).Nodup := by
  refine ⟨fun p => mem_getDueScheduledPrompts_iff s now p, ?_, due_ids_nodup s now hs hk⟩
  intro p hp
  have hpend := ((mem_getDueScheduledPrompts_iff s now p).mp hp).2.1
  refine ⟨?_, ?_, ?_⟩ <;> intro hbad <;> rw [hbad] at hpend <;> exact ScheduleStatus.noConfusion hpend

/-- Witness for C4: in the concrete store, the schedule due exactly at the
poll instant is returned (inclusive boundary) and the returned ids are
duplicate-free. -/
theorem due_query_exactly_pending_due_active_once_witness :
    ((dueQueryStore.scheduledPrompts.map (fun p => p.id)).Nodup)
    ∧ ((dueQueryStore.proKeys.map (fun k => k.id)).Nodup)
    ∧ samplePrompt 1 100 ScheduleStatus.pending false ∈ getDueScheduledPrompts dueQueryStore 100
    ∧ ((getDueScheduledPrompts dueQueryStore 100).map (fun p => p.id)).Nodup := by
  refine ⟨by decide, by decide, ?_, ?_⟩
  · exact ((due_query_exactly_pending_due_active_once dueQueryStore 100 (by decide)
      (by decide)).1 _).mpr (by decide)
  · exact (due_query_exactly_pending_due_active_once dueQueryStore 100 (by decide)
      (by decide)).2.2

/-- Under failure-free storage, one pick-up runs the success path: one log
INSERT followed by the 'completed' status UPDATE. -/
lemma executeOne_ff (env : ExecEnv) (now : Nat) (s : Store) (p : ScheduledPrompt)
    (hff : ∀ c, env.writeResult c = none) :
    executeOne env now s p = Except.ok
      ((updateScheduledPromptStatus (logAutomationExecution s (successLogData env p))
        p.id ScheduleStatus.completed now).1, true) := by
  simp [executeOne, hff]

/-- Whenever the loop returns counts, they partition the processed list. -/
lemma executeLoop_counts (env : ExecEnv) (now : Nat) :
    ∀ (l : List ScheduledPrompt) (s : Store) (ex fl : Nat) (s' : Store) (ex' fl' : Nat),
      executeLoop env now l s ex fl = Except.ok (s', ex', fl') → ex' + fl' = ex + fl + l.length := by
  intro l
  induction l with
  | nil =>
    intro s ex fl s' ex' fl' h
    simp only [executeLoop, Except.ok.injEq, Prod.mk.injEq] at h
    obtain ⟨h1, h2, h3⟩ := h
    subst h2
    subst h3
    simp
  | cons p rest ih =>
    intro s ex fl s' ex' fl' h
    simp only [executeLoop] at h
    cases hE : executeOne env now s p with
    | error e => rw [hE] at h; exact Except.noConfusion h
    | ok pr =>
      obtain ⟨s1, b⟩ := pr
      rw [hE] at h
      cases b
      · have := ih s1 ex (fl + 1) s' ex' fl' h
        simp only [List.length_cons]
        omega
      · have := ih s1 (ex + 1) fl s' ex' fl' h
        simp only [List.length_cons]
        omega

/-- Under failure-free storage the loop succeeds, counts every prompt as
executed, and appends exactly one log row per prompt, in list order. -/
lemma executeLoop_ff (env : ExecEnv) (now : Nat) (hff : ∀ c, env.writeResult c = none) :
    ∀ (l : List ScheduledPrompt) (s : Store) (ex fl : Nat), ∃ s',
      executeLoop env now l s ex fl = Except.ok (s', ex + l.length, fl)
      ∧ s'.automationLogs.map (fun lg => lg.scheduledPromptId)
          = s.automationLogs.map (fun lg => lg.scheduledPromptId) ++ l.map (fun p => p.id) := by
  intro l
  induction l with
  | nil =>
    intro s ex fl
    exact ⟨s, by simp [executeLoop], by simp⟩
  | cons p rest ih =>
    intro s ex fl
    obtain ⟨s', hrun, hlogs⟩ := ih
      ((updateScheduledPromptStatus (logAutomationExecution s (successLogData env p))
        p.id ScheduleStatus.completed now).1) (ex + 1) fl
    refine ⟨s', ?_, ?_⟩
    · simp only [executeLoop, executeOne_ff env now s p hff, List.length_cons]
      rw [show ex + (rest.length + 1) = ex + 1 + rest.length from by omega]
      exact hrun
    · rw [hlogs]
      simp [updateScheduledPromptStatus, logAutomationExecution, successLogData]

/-- C9: whenever an execution cycle returns its counts, every due prompt
fetched at the start of the cycle was classified exactly once as executed or
failed, so `executed + failed` equals the number of due prompts fetched. -/
theorem executed_plus_failed_equals_due_count (env : ExecEnv) (s : Store) (now : Nat)
    (s' : Store) (ex fl : Nat)
    (h : executeScheduledPrompts env s now = Except.ok (s', ex, fl)) :
    ex + fl = (getDueScheduledPrompts s now).length := by
  have hc := executeLoop_counts env now (getDueScheduledPrompts s now) s 0 0 s' ex fl h
  omega

/-- Witness for C9: the concrete single-due-prompt cycle returns counts
`(1, 0)` and indeed `1 + 0` equals the one due prompt fetched. -/
theorem executed_plus_failed_equals_due_count_witness :
    executeScheduledPrompts ffEnv singleDueStore 100 = Except.ok (singleDueFinalStore, 1, 0)
    ∧ 1 + 0 = (getDueScheduledPrompts singleDueStore 100).length := by
  have hrun : executeScheduledPrompts ffEnv singleDueStore 100
      = Except.ok (singleDueFinalStore, 1, 0) := by rfl
  exact ⟨hrun, executed_plus_failed_equals_due_count ffEnv singleDueStore 100
    singleDueFinalStore 1 0 hrun⟩

/-- C5: under failure-free storage a cycle processes the due schedules
sequentially in ascending `scheduledAt` order — the due list is sorted
oldest-first and the execution-log rows are appended in exactly that
order. -/
theorem cycle_processes_due_oldest_first (env : ExecEnv) (s : Store) (now : Nat)
    (hff : env.writeResult = fun _ => none) :
    ∃ s', executeScheduledPrompts env s now
        = Except.ok (s', (getDueScheduledPrompts s now).length, 0)
      ∧ s'.automationLogs.map (fun lg => lg.scheduledPromptId)
          = s.automationLogs.map (fun lg => lg.scheduledPromptId)
            ++ (getDueScheduledPrompts s now).map (fun p => p.id)
      ∧ List.Sorted (fun a b => a ≤ b)
          ((getDueScheduledPrompts s now).map (fun p => p.scheduledTime)) := by
  have hffp : ∀ c, env.writeResult c = none := fun c => by rw [hff]
  obtain ⟨s', hrun, hlogs⟩ := executeLoop_ff env now hffp (getDueScheduledPrompts s now) s 0 0
  refine ⟨s', ?_, hlogs, ?_⟩
  · simpa [executeScheduledPrompts] using hrun
  · have hsor : List.Sorted schedLE (getDueScheduledPrompts s now) := by
      unfold getDueScheduledPrompts
      exact List.sorted_insertionSort schedLE _
    exact List.Pairwise.map _ (fun a b h => h) hsor

/-- Witness for C5: two schedules due at 600 and 605 (stored in the
opposite order) are processed oldest-first with the log rows created in
that order. -/
theorem cycle_processes_due_oldest_first_witness :
    (ffEnv.writeResult = fun _ => none)
    ∧ ∃ s', executeScheduledPrompts ffEnv twoDueStore 700
        = Except.ok (s', (getDueScheduledPrompts twoDueStore 700).length, 0)
      ∧ s'.automationLogs.map (fun lg => lg.scheduledPromptId)
          = twoDueStore.automationLogs.map (fun lg => lg.scheduledPromptId)
            ++ (getDueScheduledPrompts twoDueStore 700).map (fun p => p.id)
      ∧ List.Sorted (fun a b => a ≤ b)
          ((getDueScheduledPrompts twoDueStore 700).map (fun p => p.scheduledTime)) :=
  ⟨rfl, cycle_processes_due_oldest_first ffEnv twoDueStore 700 rfl⟩

/-- C2 (amended): under failure-free storage, each pick-up writes exactly
one ExecutionLogEntry for that schedule, and the status transition
increments the schedule's attempt counter (`execution_count`) by exactly 1
and refreshes `updated_at`; the dedicated `last_execution` column is left
untouched — the UPDATE never sets it. -/
theorem pickup_logs_once_and_increments_attempt_counter (env : ExecEnv) (now : Nat)
    (s : Store) (p : ScheduledPrompt) (hff : env.writeResult = fun _ => none) :
    ∃ s', executeOne env now s p = Except.ok (s', true)
      ∧ s'.automationLogs.map (fun lg => lg.scheduledPromptId)
          = s.automationLogs.map (fun lg => lg.scheduledPromptId) ++ [p.id]
      ∧ s'.scheduledPrompts.map (fun row => row.executionCount)
          = s.scheduledPrompts.map (fun row =>
              if row.id = p.id then row.executionCount + 1 else row.executionCount)
      ∧ s'.scheduledPrompts.map (fun row => row.updatedAt)
          = s.scheduledPrompts.map (fun row => if row.id = p.id then now else row.updatedAt)
      ∧ s'.scheduledPrompts.map (fun row => row.lastExecution)
          = s.scheduledPrompts.map (fun row => row.lastExecution) := by
  have hffp : ∀ c, env.writeResult c = none := fun c => by rw [hff]
  refine ⟨_, executeOne_ff env now s p hffp, ?_, ?_, ?_, ?_⟩
  · simp [updateScheduledPromptStatus, logAutomationExecution, successLogData]
  · simp only [updateScheduledPromptStatus, logAutomationExecution, List.map_map]
    refine List.map_congr_left ?_
    intro row _
    by_cases h : row.id = p.id <;> simp [h, Function.comp]
  · simp only [updateScheduledPromptStatus, logAutomationExecution, List.map_map]
    refine List.map_congr_left ?_
    intro row _
    by_cases h : row.id = p.id <;> simp [h, Function.comp]
  · simp only [updateScheduledPromptStatus, logAutomationExecution, List.map_map]
    refine List.map_congr_left ?_
    intro row _
    by_cases h : row.id = p.id <;> simp [h, Function.comp]

/-- Witness for C2 (amended): one concrete pick-up appends one log row,
bumps the attempt counter of the due schedule from 0 to 1 and refreshes its
`updated_at`, while `last_execution` stays NULL. -/
theorem pickup_logs_once_and_increments_attempt_counter_witness :
    (ffEnv.writeResult = fun _ => none)
    ∧ ∃ s', executeOne ffEnv 100 singleDueStore singleDuePrompt = Except.ok (s', true)
      ∧ s'.automationLogs.map (fun lg => lg.scheduledPromptId)
          = singleDueStore.automationLogs.map (fun lg => lg.scheduledPromptId)
            ++ [singleDuePrompt.id]
      ∧ s'.scheduledPrompts.map (fun row => row.executionCount)
          = singleDueStore.scheduledPrompts.map (fun row =>
              if row.id = singleDuePrompt.id then row.executionCount + 1 else row.executionCount)
      ∧ s'.scheduledPrompts.map (fun row => row.updatedAt)
          = singleDueStore.scheduledPrompts.map (fun row =>
              if row.id = singleDuePrompt.id then 100 else row.updatedAt)
      ∧ s'.scheduledPrompts.map (fun row => row.lastExecution)
          = singleDueStore.scheduledPrompts.map (fun row => row.lastExecution) :=
  ⟨rfl, pickup_logs_once_and_increments_attempt_counter ffEnv 100 singleDueStore
    singleDuePrompt rfl⟩

/-- C2 counterexample: the claim as stated says the status transition
updates the schedule's last-execution timestamp, but after a full pick-up at
instant 100 the `last_execution` column still holds NULL, not the execution
instant. -/
theorem status_update_leaves_last_execution_null :
    lastExecutionColumn (executeScheduledPrompts ffEnv singleDueStore 100) = [none]
    ∧ lastExecutionColumn (executeScheduledPrompts ffEnv singleDueStore 100) ≠ [some 100] := by
  exact ⟨by decide, by decide⟩

/-- C3 (amended): when the success-path log INSERT of a schedule throws
while the catch handler's writes succeed, the schedule does not remain
pending — the handler records one 'failed' log row carrying the thrown
message and transitions the schedule to 'failed' — and the poll cycle
continues with the next schedule. -/
theorem storage_failure_marks_schedule_failed_and_cycle_continues (env : ExecEnv) (now : Nat)
    (s : Store) (p : ScheduledPrompt) (m : String)
    (h1 : env.writeResult (WriteCall.successLog p.id) = some m)
    (h2 : env.writeResult (WriteCall.failedLog p.id) = none)
    (h3 : env.writeResult (WriteCall.failedUpdate p.id) = none) :
    ∃ s', executeOne env now s p = Except.ok (s', false)
      ∧ s'.automationLogs.map (fun lg => (lg.scheduledPromptId, lg.status, lg.errorMessage))
          = s.automationLogs.map (fun lg => (lg.scheduledPromptId, lg.status, lg.errorMessage))
            ++ [(p.id, LogStatus.failed, some m)]
      ∧ s'.scheduledPrompts.map (fun row => row.status)
          = s.scheduledPrompts.map (fun row =>
              if row.id = p.id then ScheduleStatus.failed else row.status)
      ∧ (∀ rest ex fl, executeLoop env now (p :: rest) s ex fl
          = executeLoop env now rest s' ex (fl + 1)) := by
  have hE : executeOne env now s p = Except.ok
      ((updateScheduledPromptStatus (logAutomationExecution s
        { scheduledPromptId := p.id
          status := LogStatus.failed
          errorMessage := some m
          executionDuration := some 0 })
        p.id ScheduleStatus.failed now).1, false) := by
    simp [executeOne, executeCatch, h1, h2, h3]
  refine ⟨_, hE, ?_, ?_, ?_⟩
  · simp [updateScheduledPromptStatus, logAutomationExecution]
  · simp only [updateScheduledPromptStatus, logAutomationExecution, List.map_map]
    refine List.map_congr_left ?_
    intro row _
    by_cases h : row.id = p.id <;> simp [h, Function.comp]
  · intro rest ex fl
    simp only [executeLoop, hE]

/-- Witness for C3 (amended): in the environment whose success-path log
INSERT throws, the concrete due schedule ends 'failed' with one 'failed' log
row, and the loop equation continues with the rest of the due list. -/
theorem storage_failure_marks_schedule_failed_and_cycle_continues_witness :
    failingLogEnv.writeResult (WriteCall.successLog singleDuePrompt.id) = some "db write failed"
    ∧ failingLogEnv.writeResult (WriteCall.failedLog singleDuePrompt.id) = none
    ∧ failingLogEnv.writeResult (WriteCall.failedUpdate singleDuePrompt.id) = none
    ∧ ∃ s', executeOne failingLogEnv 100 singleDueStore singleDuePrompt = Except.ok (s', false)
      ∧ s'.automationLogs.map (fun lg => (lg.scheduledPromptId, lg.status, lg.errorMessage))
          = singleDueStore.automationLogs.map
              (fun lg => (lg.scheduledPromptId, lg.status, lg.errorMessage))
            ++ [(singleDuePrompt.id, LogStatus.failed, some "db write failed")]
      ∧ s'.scheduledPrompts.map (fun row => row.status)
          = singleDueStore.scheduledPrompts.map (fun row =>
              if row.id = singleDuePrompt.id then ScheduleStatus.failed else row.status)
      ∧ (∀ rest ex fl, executeLoop failingLogEnv 100 (singleDuePrompt :: rest) singleDueStore ex fl
          = executeLoop failingLogEnv 100 rest s' ex (fl + 1)) :=
  ⟨rfl, rfl, rfl, storage_failure_marks_schedule_failed_and_cycle_continues failingLogEnv 100
    singleDueStore singleDuePrompt "db write failed" rfl rfl rfl⟩

/-- C3 counterexample: the claim as stated says the affected schedule
remains pending after a failed storage write; in fact after the cycle the
schedule's status is 'failed', not 'pending'. -/
theorem storage_failure_does_not_leave_schedule_pending :
    statusColumn (executeScheduledPrompts failingLogEnv singleDueStore 100)
      = [ScheduleStatus.failed]
    ∧ statusColumn (executeScheduledPrompts failingLogEnv singleDueStore 100)
      ≠ [ScheduleStatus.pending] := by
  exact ⟨by decide, by decide⟩

/-- C6 (amended): a due schedule with channels {telegram: true, discord:
false} whose owner has no Telegram settings produces, under failure-free
storage, exactly one 'success' log row whose channel results record
telegram as not delivered with error "Telegram settings not configured"
(capitalised as in the source), and the schedule transitions to completed —
the missing integration is not fatal. -/
theorem missing_telegram_settings_nonfatal (env : ExecEnv) (now : Nat) (s : Store)
    (p : ScheduledPrompt)
    (htg : p.integrations.telegram = true)
    (hdc : p.integrations.discord = false)
    (hset : env.telegramSettings p.proKeyId = none)
    (hff : env.writeResult = fun _ => none) :
    ∃ s', executeOne env now s p = Except.ok (s', true)
      ∧ s'.automationLogs.map (fun lg => (lg.scheduledPromptId, lg.status, lg.integrationResults))
          = s.automationLogs.map (fun lg => (lg.scheduledPromptId, lg.status, lg.integrationResults))
            ++ [(p.id, LogStatus.success,
                some { telegram := false
                       discord := false
                       telegramError := some "Telegram settings not configured"
                       discordError := none })]
      ∧ s'.scheduledPrompts.map (fun row => row.status)
          = s.scheduledPrompts.map (fun row =>
              if row.id = p.id then ScheduleStatus.completed else row.status) := by
  have hffp : ∀ c, env.writeResult c = none := fun c => by rw [hff]
  have hri : runIntegrations env p =
      { telegram := false
        discord := false
        telegramError := some "Telegram settings not configured"
        discordError := none } := by
    simp [runIntegrations, htg, hdc, hset]
  refine ⟨_, executeOne_ff env now s p hffp, ?_, ?_⟩
  · simp [updateScheduledPromptStatus, logAutomationExecution, successLogData, hri]
  · simp only [updateScheduledPromptStatus, logAutomationExecution, List.map_map]
    refine List.map_congr_left ?_
    intro row _
    by_cases h : row.id = p.id <;> simp [h, Function.comp]

/-- Witness for C6 (amended): the concrete telegram-only schedule with no
settings configured ends completed with one success log recording the
capitalised not-configured error. -/
theorem missing_telegram_settings_nonfatal_witness :
    singleDuePrompt.integrations.telegram = true
    ∧ singleDuePrompt.integrations.discord = false
    ∧ ffEnv.telegramSettings singleDuePrompt.proKeyId = none
    ∧ (ffEnv.writeResult = fun _ => none)
    ∧ ∃ s', executeOne ffEnv 100 singleDueStore singleDuePrompt = Except.ok (s', true)
      ∧ s'.automationLogs.map (fun lg => (lg.scheduledPromptId, lg.status, lg.integrationResults))
          = singleDueStore.automationLogs.map
              (fun lg => (lg.scheduledPromptId, lg.status, lg.integrationResults))
            ++ [(singleDuePrompt.id, LogStatus.success,
                some { telegram := false
                       discord := false
                       telegramError := some "Telegram settings not configured"
                       discordError := none })]
      ∧ s'.scheduledPrompts.map (fun row => row.status)
          = singleDueStore.scheduledPrompts.map (fun row =>
              if row.id = singleDuePrompt.id then ScheduleStatus.completed else row.status) :=
  ⟨rfl, rfl, rfl, rfl, missing_telegram_settings_nonfatal ffEnv 100 singleDueStore
    singleDuePrompt rfl rfl rfl rfl⟩

/-- C6 counterexample: the claim as stated expects the channel error string
"telegram settings not configured"; the source records the capitalised
variant "Telegram settings not configured", so the exact string of the
claim never appears. -/
theorem telegram_not_configured_error_is_capitalised :
    firstLogTelegramError (executeScheduledPrompts ffEnv singleDueStore 100)
      = some "Telegram settings not configured"
    ∧ firstLogTelegramError (executeScheduledPrompts ffEnv singleDueStore 100)
      ≠ some "telegram settings not configured" := by
  exact ⟨by decide, by decide⟩

/-- C7: the notifier send operations never throw to the caller — for every
input and every fetch behaviour (network throw, malformed/missing settings,
remote non-2xx) they return a result value, with success false exactly when
an error string is recorded, and success true exactly on a delivered 2xx
response with well-formed settings. -/
theorem notifier_sends_never_throw (message webhookUrl botToken chatId : String)
    (o : FetchOutcome) (oT : TgFetchOutcome) :
    ((sendAnalysisToDiscord message webhookUrl o).success = false
        ↔ ((sendAnalysisToDiscord message webhookUrl o).error).isSome = true)
    ∧ ((sendAnalysisToDiscord message webhookUrl o).success = true
        ↔ (webhookUrl ≠ "" ∧ ∃ st b, o = FetchOutcome.responds true st b))
    ∧ ((sendAnalysisToTelegram message botToken chatId oT).success = false
        ↔ ((sendAnalysisToTelegram message botToken chatId oT).error).isSome = true)
    ∧ ((sendAnalysisToTelegram message botToken chatId oT).success = true
        ↔ (botToken ≠ "" ∧ chatId ≠ ""
            ∧ ∃ st d mid, oT = TgFetchOutcome.responds true st d mid)) := by
  refine ⟨?_, ?_, ?_, ?_⟩
  · unfold sendAnalysisToDiscord
    by_cases hw : webhookUrl = ""
    · simp [hw]
    · cases o with
      | throws m => simp [hw]
      | responds ok st b => cases ok <;> simp [hw]
  · unfold sendAnalysisToDiscord
    by_cases hw : webhookUrl = ""
    · simp [hw]
    · cases o with
      | throws m => simp [hw]
      | responds ok st b =>
        cases ok
        · simp [hw]
        · simpa [hw] using ⟨st, b, rfl⟩
  · unfold sendAnalysisToTelegram sendTelegramMessage
    by_cases hb : botToken = "" ∨ chatId = ""
    · simp [hb]
    · cases oT with
      | throws m => simp [hb]
      | responds ok st d mid => cases ok <;> simp [hb]
  · unfold sendAnalysisToTelegram sendTelegramMessage
    by_cases hb : botToken = "" ∨ chatId = ""
    · simp [hb]
      intro h1 h2
      exact (hb.elim h1 h2).elim
    · cases oT with
      | throws m =>
        simp [hb]
      | responds ok st d mid =>
        cases ok
        · simp [hb]
        · push_neg at hb
          simp [hb.1, hb.2]

/-- Splitting a newline-free string yields the single whole line. -/
lemma splitOnNewlineChars_no_newline (l : List Char) (h : ('\n' : Char) ∉ l) :
    splitOnNewlineChars l = [l] := by
  induction l with
  | nil => rfl
  | cons c cs ih =>
    have hc : ¬ c = '\n' := fun hh => h (hh ▸ List.mem_cons_self c cs)
    have hcs : ('\n' : Char) ∉ cs := fun hm => h (List.mem_cons_of_mem c hm)
    simp only [splitOnNewlineChars, if_neg hc, ih hcs]

/-- An overlong line reached while the current chunk is nonempty is carried
over whole: the `else` branch of the loop never splits it. -/
lemma splitChunkStep_overflow (chunks : List (List Char)) (cur line : List Char)
    (hcur : ¬ (cur = []))
    (hlen : 4096 - 50 < (cur ++ ['\n'] ++ line).length) :
    splitChunkStep (chunks, cur) line = (chunks ++ [cur], line) := by
  unfold splitChunkStep
  simp only [if_neg hcur]
  rw [if_neg (by omega)]

theorem split_long_message_emits_oversized_chunk :
    4096 < c8BadMessage.length
    ∧ (splitLongMessage c8BadMessage).any (fun c => decide (4096 < c.length)) = true := by
  have hl5 : c8LongLine.length = 5000 := by
    unfold c8LongLine
    exact List.length_replicate 5000 'x'
  have hlen : c8BadMessage.length = 5002 := by
    show ('a' :: '\n' :: c8LongLine).length = 5002
    simp only [List.length_cons, hl5]
  have hnl : ('\n' : Char) ∉ c8LongLine := by
    intro hm
    exact absurd (List.eq_of_mem_replicate hm) (by decide)
  have e2 : splitOnNewlineChars ('\n' :: c8LongLine) = [] :: [c8LongLine] := by
    rw [splitOnNewlineChars, if_pos rfl, splitOnNewlineChars_no_newline c8LongLine hnl]
  have hsocs : splitOnNewlineChars c8BadMessage = [['a'], c8LongLine] := by
    show splitOnNewlineChars ('a' :: '\n' :: c8LongLine) = _
    rw [splitOnNewlineChars, if_neg (by decide : ¬ ('a' : Char) = '\n'), e2]
  have hstep1 : splitChunkStep ([], []) ['a'] = ([], ['a']) := by rfl
  have hstep2 : splitChunkStep ([], ['a']) c8LongLine = ([['a']], c8LongLine) := by
    refine splitChunkStep_overflow [] ['a'] c8LongLine (by decide) ?_
    simp only [List.length_append, List.length_cons, List.length_nil, hl5]
    omega
  have hne : ¬ (c8LongLine = []) := by
    intro h
    have hl := congrArg List.length h
    rw [hl5] at hl
    exact absurd hl (by decide)
  have hfold : splitLongMessage c8BadMessage = [['a'], c8LongLine] := by
    unfold splitLongMessage
    rw [hlen, if_neg (by omega), hsocs]
    rw [List.foldl_cons, hstep1, List.foldl_cons, hstep2, List.foldl_nil]
    rw [if_neg hne]
    rfl
  constructor
  · rw [hlen]
    omega
  · rw [hfold]
    simp only [List.any_cons, List.any_nil, hl5, List.length_cons, List.length_nil]
    rfl
